import Mathlib

/-!
Shallow embedding of the supplier-portal backend (`src/server.js`): a
multi-tenant product catalog where suppliers manage their own products and
an admin manages supplier accounts.  Mongo collections become lists of
records, route handlers become pure functions from a database state and a
verified token payload to a response paired with the next state.  bcrypt
hashing is modelled by an injective tagging function, and JWT verification
is abstracted away: handlers receive the verified payload (`AuthUser`),
which is exactly what `authenticateToken` hands them via `req.user`.
-/

namespace SupplierPortal

/-- A document of the `Supplier` collection (`supplierSchema`, server.js:22-31).
`sid` stands for the Mongo `_id`. -/
structure Supplier where
  sid : Nat
  email : String
  username : String
  password : String
  companyName : String
  contactPerson : String
  productCount : Nat
  lastActive : Option Nat
deriving DecidableEq, Repr

/-- A document of the `Admin` collection (`adminSchema`, server.js:34-38). -/
structure Admin where
  aid : Nat
  username : String
  password : String
deriving DecidableEq, Repr

/-- A document of the `Product` collection (`productSchema`, server.js:41-48). -/
structure Product where
  pid : Nat
  supplierId : Nat
  sku : String
  name : String
  price : Int
  unit : String
  lastUpdated : Nat
deriving DecidableEq, Repr

/-- The whole MongoDB state; `nextId` supplies fresh `_id`s. -/
structure DB where
  suppliers : List Supplier
  admins : List Admin
  products : List Product
  nextId : Nat
deriving DecidableEq, Repr

/-- Abstraction of `bcrypt.hash(pw, 10)`: an injective tag on the password. -/
def bcryptHash (pw : String) : String := "bcrypt$2a$10$" ++ pw

/-- Abstraction of `bcrypt.compare(pw, stored)`: succeeds exactly when the
stored string is the hash of `pw`. -/
def bcryptCompare (pw stored : String) : Bool := bcryptHash pw == stored

/-- The payload `authenticateToken` puts into `req.user` after verifying the
JWT signature and expiry (server.js:58-73): the caller id and role claim. -/
structure AuthUser where
  id : Nat
  role : String
deriving DecidableEq, Repr

/-- A JSON response from a non-login route: HTTP status plus the `error` or
`message` field of the body. -/
structure ApiResponse where
  status : Nat
  error : Option String
  message : Option String
deriving DecidableEq, Repr

/-- A JSON response from a login route: status, `error` field, and the token
payload when one is issued. -/
structure LoginResult where
  status : Nat
  error : Option String
  token : Option AuthUser
deriving DecidableEq, Repr

/-- The shared failure response of both login routes (server.js:273,279,316,322). -/
def invalidCredentials : LoginResult :=
  { status := 400, error := some "Invalid credentials", token := none }

/-- The `403 Access denied` response of the role checks. -/
def accessDenied : ApiResponse :=
  { status := 403, error := some "Access denied", message := none }

/-- `Supplier.findOne({$or: [{email: username}, {username: username}]})`
(server.js:121-126 and 265-270). -/
def supplierFindByUsername (db : DB) (username : String) : Option Supplier :=
  db.suppliers.find? (fun s => s.email == username || s.username == username)

/-- `Admin.findOne({ username })` (server.js:313). -/
def adminFindByUsername (db : DB) (username : String) : Option Admin :=
  db.admins.find? (fun a => a.username == username)

/-- `Product.countDocuments({ supplierId: sid })` (server.js:384). -/
def countProducts (db : DB) (sid : Nat) : Nat :=
  (db.products.filter (fun p => p.supplierId == sid)).length

/-- `initializeAdmin` (server.js:76-101): count the admin documents and
create the default admin, with the hashed default password, only when the
count is zero. -/
def initializeAdmin (defaultUsername defaultPassword : String) (db : DB) : DB :=
  if db.admins.length == 0 then
    { db with
      admins := [{ aid := db.nextId
                   username := defaultUsername
                   password := bcryptHash defaultPassword }]
      nextId := db.nextId + 1 }
  else db

/-- `POST /api/supplier/login` (server.js:260-305): look the supplier up by
email or username, compare the password against the stored hash, update
`lastActive` and issue a `role: supplier` token on success; on either
failure return the generic 400 response. -/
def supplierLogin (db : DB) (username password : String) (now : Nat) :
    LoginResult × DB :=
  match supplierFindByUsername db username with
  | none => (invalidCredentials, db)
  | some s =>
    if bcryptCompare password s.password then
      ({ status := 200, error := none
         token := some { id := s.sid, role := "supplier" } },
       { db with suppliers := db.suppliers.map (fun t =>
           if t.sid == s.sid then { t with lastActive := some now } else t) })
    else (invalidCredentials, db)

/-- `POST /api/admin/login` (server.js:308-341): look the admin up by
username, compare the password, issue a `role: admin` token on success; on
either failure return the generic 400 response. -/
def adminLogin (db : DB) (username password : String) : LoginResult × DB :=
  match adminFindByUsername db username with
  | none => (invalidCredentials, db)
  | some a =>
    if bcryptCompare password a.password then
      ({ status := 200, error := none
         token := some { id := a.aid, role := "admin" } }, db)
    else (invalidCredentials, db)

/-- `POST /api/admin/create-supplier` (server.js:112-158): admins only;
reject an already-taken username with 400, otherwise insert the supplier
with the hashed password. -/
def createSupplier (db : DB) (user : AuthUser)
    (username password companyName contactPerson : String) :
    ApiResponse × DB :=
  if user.role != "admin" then
    ({ status := 403
       error := some "Access denied. Only admins can create suppliers."
       message := none }, db)
  else
    match supplierFindByUsername db username with
    | some _ =>
      ({ status := 400, error := some "Username already exists"
         message := none }, db)
    | none =>
      ({ status := 201, error := none
         message := some "Supplier created successfully" },
       { db with
         suppliers := db.suppliers ++
           [{ sid := db.nextId
              email := username
              username := username
              password := bcryptHash password
              companyName := companyName
              contactPerson := contactPerson
              productCount := 0
              lastActive := none }]
         nextId := db.nextId + 1 })

/-- `DELETE /api/admin/suppliers/:id` (server.js:237-257): admins only;
first `Product.deleteMany({supplierId: id})`, then
`Supplier.findByIdAndDelete(id)`, answering 404 when the latter finds no
supplier — the products are removed in either case. -/
def deleteSupplier (db : DB) (user : AuthUser) (id : Nat) :
    ApiResponse × DB :=
  if user.role != "admin" then (accessDenied, db)
  else
    let db1 := { db with
      products := db.products.filter (fun p => !(p.supplierId == id)) }
    match db1.suppliers.find? (fun s => s.sid == id) with
    | none =>
      ({ status := 404, error := some "Supplier not found", message := none },
       db1)
    | some _ =>
      ({ status := 200, error := none
         message := some "Supplier and all their products deleted successfully" },
       { db1 with suppliers := db1.suppliers.eraseP (fun s => s.sid == id) })

/-- The 400 response of the product limit (server.js:386-390). -/
def productLimitError : ApiResponse :=
  { status := 400
    error := some "Product limit reached. Maximum 50 products per supplier."
    message := none }

/-- `POST /api/products` (server.js:377-414): suppliers only; count the
caller's products, refuse at 50, otherwise insert the product (no SKU
check) and store the incremented count on the supplier document. -/
def addProduct (db : DB) (user : AuthUser) (sku name : String) (price : Int)
    (unit : String) (now : Nat) : ApiResponse × DB :=
  if user.role != "supplier" then (accessDenied, db)
  else
    let productCount := countProducts db user.id
    if productCount >= 50 then (productLimitError, db)
    else
      ({ status := 201, error := none
         message := some "Product added successfully" },
       { db with
         products := db.products ++
           [{ pid := db.nextId
              supplierId := user.id
              sku := sku
              name := name
              price := price
              unit := unit
              lastUpdated := now }]
         suppliers := db.suppliers.map (fun s =>
           if s.sid == user.id then { s with productCount := productCount + 1 }
           else s)
         nextId := db.nextId + 1 })

/-- Apply `f` to the first element satisfying `p`, as
`findOneAndUpdate` does on its single matched document. -/
def updateFirst (p : α → Bool) (f : α → α) : List α → List α
  | [] => []
  | x :: xs => if p x then f x :: xs else x :: updateFirst p f xs

/-- The 404 response of the product routes (server.js:446,468). -/
def productNotFound : ApiResponse :=
  { status := 404, error := some "Product not found", message := none }

/-- `PUT /api/products/:id` (server.js:431-453): suppliers only;
`findOneAndUpdate({_id: id, supplierId: caller})` updates the caller's own
product or yields 404 when no document matches both conditions. -/
def updateProduct (db : DB) (user : AuthUser) (id : Nat) (sku name : String)
    (price : Int) (unit : String) (now : Nat) : ApiResponse × DB :=
  if user.role != "supplier" then (accessDenied, db)
  else
    match db.products.find? (fun p => p.pid == id && p.supplierId == user.id) with
    | none => (productNotFound, db)
    | some _ =>
      let changed :=
        updateFirst (fun p => p.pid == id && p.supplierId == user.id)
          (fun p => { p with
             sku := sku
             name := name
             price := price
             unit := unit
             lastUpdated := now })
          db.products
      ({ status := 200, error := none
         message := some "Product updated successfully" },
       { db with products := changed })

/-- `DELETE /api/products/:id` (server.js:456-481): suppliers only;
`findOneAndDelete({_id: id, supplierId: caller})` deletes the caller's own
product or yields 404; on success the supplier's `productCount` is set to
the recounted total. -/
def deleteProduct (db : DB) (user : AuthUser) (id : Nat) : ApiResponse × DB :=
  if user.role != "supplier" then (accessDenied, db)
  else
    match db.products.find? (fun p => p.pid == id && p.supplierId == user.id) with
    | none => (productNotFound, db)
    | some _ =>
      let remaining := db.products.eraseP
        (fun p => p.pid == id && p.supplierId == user.id)
      ({ status := 200, error := none
         message := some "Product deleted successfully" },
       { db with
         products := remaining
         suppliers := db.suppliers.map (fun s =>
           if s.sid == user.id then
             { s with productCount :=
                 (remaining.filter (fun p => p.supplierId == user.id)).length }
           else s) })

/-- A product of the customer-variant server embedded in
`QUICK_START.md` (productSchema, QUICK_START.md:142-149): owned by a
customer rather than a supplier. -/
structure CProduct where
  pid : Nat
  customerId : Nat
  sku : String
  name : String
  price : Int
  unit : String
  lastUpdated : Nat
deriving DecidableEq, Repr

/-- An order document of that variant (orderSchema,
QUICK_START.md:164-169).  The schema declares `orderAmount` and
`lastUpdated`; the submit-all route additionally writes
`lastSubmittedAmount` (QUICK_START.md:855), which we model as a stored
field as the route intends. -/
structure OrderDoc where
  customerId : Nat
  productId : Nat
  orderAmount : Int
  lastSubmittedAmount : Int
  lastUpdated : Nat
deriving DecidableEq, Repr

/-- One element of the request body's `orders` array
(QUICK_START.md:836): a product id and the amount the client submits. -/
structure OrderItem where
  productId : Nat
  orderAmount : Int
deriving DecidableEq, Repr

/-- The `results` accumulator of the submit-all route
(QUICK_START.md:828-832). -/
structure SubmitResults where
  success : Nat
  failed : Nat
  errors : List String
deriving DecidableEq, Repr

/-- The JSON answer of the submit-all route: status, `error` field, and on
success the message, shared timestamp and per-item results. -/
structure SubmitResponse where
  status : Nat
  error : Option String
  message : Option String
  timestamp : Option Nat
  results : Option SubmitResults
deriving DecidableEq, Repr

/-- The products and orders half of the customer-variant database. -/
structure OrdersDB where
  products : List CProduct
  orders : List OrderDoc
deriving DecidableEq, Repr

/-- `Order.findOneAndUpdate({customerId, productId}, {lastSubmittedAmount:
orderAmount, orderAmount: 0, lastUpdated: timestamp}, {upsert: true})`
(QUICK_START.md:852-860): update the matched order, or insert one built
from the filter and update documents when none matches. -/
def submitOrderUpsert (orders : List OrderDoc) (cid productId : Nat)
    (amount : Int) (timestamp : Nat) : List OrderDoc :=
  if (orders.find? (fun o => o.customerId == cid && o.productId == productId)).isSome then
    updateFirst (fun o => o.customerId == cid && o.productId == productId)
      (fun o => { o with
         lastSubmittedAmount := amount
         orderAmount := 0
         lastUpdated := timestamp })
      orders
  else
    orders ++ [{ customerId := cid
                 productId := productId
                 orderAmount := 0
                 lastSubmittedAmount := amount
                 lastUpdated := timestamp }]

/-- The `for (const orderData of orders)` loop of the submit-all route
(QUICK_START.md:834-867): for each client-supplied item, look the product
up by `{_id: productId, customerId: caller}`; if absent count a failure and
record `Product <id> not found`, otherwise upsert the order with the
request-body amount and count a success. -/
def submitAllLoop (products : List CProduct) (cid timestamp : Nat) :
    List OrderItem → List OrderDoc → SubmitResults →
      List OrderDoc × SubmitResults
  | [], orders, acc => (orders, acc)
  | item :: rest, orders, acc =>
    if (products.find?
        (fun p => p.pid == item.productId && p.customerId == cid)).isSome then
      submitAllLoop products cid timestamp rest
        (submitOrderUpsert orders cid item.productId item.orderAmount timestamp)
        { acc with success := acc.success + 1 }
    else
      submitAllLoop products cid timestamp rest orders
        { acc with
          failed := acc.failed + 1
          errors := acc.errors ++
            ["Product " ++ toString item.productId ++ " not found"] }

/-- `POST /api/orders/submit-all` (QUICK_START.md:814-878): customers only;
a missing or non-array body yields 400 `Invalid orders data`; otherwise the
loop above runs over the client-supplied items with one shared timestamp
and the summary is returned with status 200. -/
def submitAllOrders (db : OrdersDB) (user : AuthUser)
    (body : Option (List OrderItem)) (now : Nat) :
    SubmitResponse × OrdersDB :=
  if user.role != "customer" then
    ({ status := 403, error := some "Access denied", message := none
       timestamp := none, results := none }, db)
  else
    match body with
    | none =>
      ({ status := 400, error := some "Invalid orders data", message := none
         timestamp := none, results := none }, db)
    | some items =>
      let out := submitAllLoop db.products user.id now items db.orders
        { success := 0, failed := 0, errors := [] }
      ({ status := 200, error := none
         message := some ("Successfully submitted " ++
           toString out.2.success ++ " orders")
         timestamp := some now
         results := some out.2 },
       { db with orders := out.1 })

/-! Concrete database states used to exercise the theorems. -/

/-- A supplier document with id 1 and username `acme`. -/
def sup1 : Supplier :=
  { sid := 1, email := "a@x", username := "acme", password := bcryptHash "pw"
    companyName := "Acme", contactPerson := "A", productCount := 1
    lastActive := none }

/-- A default admin document. -/
def adm1 : Admin :=
  { aid := 0, username := "admin", password := bcryptHash "admin123" }

/-- A product with SKU `X1` owned by supplier 1. -/
def prodX1 : Product :=
  { pid := 0, supplierId := 1, sku := "X1", name := "N", price := 9
    unit := "kg", lastUpdated := 0 }

/-- Supplier 1 together with one admin and no products. -/
def loginDB : DB :=
  { suppliers := [sup1], admins := [adm1], products := [], nextId := 5 }

/-- Supplier 1 already owning the SKU `X1` product. -/
def dupDB : DB :=
  { suppliers := [sup1], admins := [], products := [prodX1], nextId := 10 }

/-- Supplier 1 exists but product 10 belongs to supplier 2. -/
def otherOwnerDB : DB :=
  { suppliers := [sup1], admins := []
    products := [{ prodX1 with supplierId := 2, pid := 10 }], nextId := 20 }

/-- An orphan product of the nonexistent supplier 5. -/
def orphanDB : DB :=
  { suppliers := [sup1], admins := []
    products := [{ prodX1 with supplierId := 5, pid := 11 }], nextId := 20 }

/-- The i-th of fifty identical products of supplier 1. -/
def mkProd (i : Nat) : Product :=
  { pid := i, supplierId := 1, sku := "s", name := "", price := 0
    unit := "", lastUpdated := 0 }

/-- Supplier 1 at the 50-product limit. -/
def fullDB : DB :=
  { suppliers := [sup1], admins := [], products := (List.range 50).map mkProd
    nextId := 100 }

/-- A completely empty database. -/
def emptyDB : DB :=
  { suppliers := [], admins := [], products := [], nextId := 0 }

/-- Customer 1 owning products 10 and 11 with stored draft amounts 5
and 4. -/
def draftsDB : OrdersDB :=
  { products :=
      [{ pid := 10, customerId := 1, sku := "A", name := "", price := 1
         unit := "kg", lastUpdated := 0 },
       { pid := 11, customerId := 1, sku := "B", name := "", price := 1
         unit := "kg", lastUpdated := 0 }]
    orders :=
      [{ customerId := 1, productId := 10, orderAmount := 5
         lastSubmittedAmount := 0, lastUpdated := 0 },
       { customerId := 1, productId := 11, orderAmount := 4
         lastSubmittedAmount := 0, lastUpdated := 0 }] }

/-! Helper lemmas about the list combinators the handlers use. -/

/-- Filtering by `q` after keeping exactly the elements failing `q` leaves
nothing. -/
lemma filter_not_self (q : α → Bool) (l : List α) :
    (l.filter (fun a => !(q a))).filter q = [] := by
  induction l with
  | nil => rfl
  | cons x xs ih => cases hqx : q x <;> simp [List.filter_cons, hqx, ih]

/-- `updateFirst` is invisible to a filter that rejects every element the
predicate accepts, before and after the update. -/
lemma filter_updateFirst (pr q : α → Bool) (f : α → α) (l : List α)
    (h1 : ∀ a, pr a = true → q a = false)
    (h2 : ∀ a, pr a = true → q (f a) = false) :
    (updateFirst pr f l).filter q = l.filter q := by
  induction l with
  | nil => rfl
  | cons x xs ih =>
    cases hx : pr x
    · cases hq : q x <;> simp [updateFirst, hx, List.filter_cons, hq, ih]
    · simp [updateFirst, hx, List.filter_cons, h1 x hx, h2 x hx]

/-- `eraseP` is invisible to a filter that rejects every element the
predicate accepts. -/
lemma filter_eraseP (pr q : α → Bool) (l : List α)
    (h1 : ∀ a, pr a = true → q a = false) :
    (l.eraseP pr).filter q = l.filter q := by
  induction l with
  | nil => rfl
  | cons x xs ih =>
    cases hx : pr x
    · cases hq : q x <;> simp [List.eraseP_cons, hx, List.filter_cons, hq, ih]
    · simp [List.eraseP_cons, hx, List.filter_cons, h1 x hx]


/-- `updateFirst` relocates the first match of `p` to its image under `f`
when `f` preserves `p`. -/
lemma find?_updateFirst (p : α → Bool) (f : α → α) (l : List α)
    (hf : ∀ a, p a = true → p (f a) = true) :
    (updateFirst p f l).find? p = (l.find? p).map f := by
  induction l with
  | nil => rfl
  | cons x xs ih =>
    cases hx : p x
    · simp [updateFirst, hx, List.find?_cons, ih]
    · simp [updateFirst, hx, List.find?_cons, hf x hx]

/-- Searching past a list without a match lands on the appended element. -/
lemma find?_append_of_none (p : α → Bool) (l : List α) (a : α)
    (h : l.find? p = none) :
    (l ++ [a]).find? p = if p a then some a else none := by
  induction l with
  | nil => cases hpa : p a <;> simp [List.find?_cons, hpa]
  | cons x xs ih =>
    cases hx : p x
    · rw [List.find?_cons_of_neg _ (by simp [hx])] at h
      simp [List.find?_cons, hx, ih h]
    · rw [List.find?_cons_of_pos _ hx] at h
      cases h

/-- After the upsert, the order of `(cid, productId)` exists and carries
the request amount, a zero draft and the shared timestamp. -/
lemma find?_submitOrderUpsert (orders : List OrderDoc) (cid productId : Nat)
    (amount : Int) (timestamp : Nat) :
    ∃ o, (submitOrderUpsert orders cid productId amount timestamp).find?
        (fun o => o.customerId == cid && o.productId == productId) = some o ∧
      o.lastSubmittedAmount = amount ∧ o.orderAmount = 0 ∧
      o.lastUpdated = timestamp := by
  unfold submitOrderUpsert
  cases hfind : orders.find?
      (fun o => o.customerId == cid && o.productId == productId) with
  | none =>
    simp only [hfind, Option.isSome_none, Bool.false_eq_true, if_false]
    refine ⟨{ customerId := cid, productId := productId, orderAmount := 0
              lastSubmittedAmount := amount, lastUpdated := timestamp },
            ?_, rfl, rfl, rfl⟩
    rw [find?_append_of_none _ _ _ hfind]
    simp
  | some o0 =>
    simp only [hfind, Option.isSome_some, if_true]
    refine ⟨{ o0 with lastSubmittedAmount := amount, orderAmount := 0
                      lastUpdated := timestamp }, ?_, rfl, rfl, rfl⟩
    rw [find?_updateFirst]
    · rw [hfind]; rfl
    · intro a ha
      simpa using ha

/-- The upsert of one product id leaves the orders of every other product
id untouched. -/
lemma filter_submitOrderUpsert (orders : List OrderDoc) (cid productId : Nat)
    (amount : Int) (timestamp : Nat) (pid : Nat) (hne : productId ≠ pid) :
    (submitOrderUpsert orders cid productId amount timestamp).filter
        (fun o => o.productId == pid) =
      orders.filter (fun o => o.productId == pid) := by
  unfold submitOrderUpsert
  cases hfind : (orders.find?
      (fun o => o.customerId == cid && o.productId == productId)).isSome
  · simp only [hfind, Bool.false_eq_true, if_false]
    simp [List.filter_append, List.filter_cons, hne]
  · simp only [hfind, if_true]
    apply filter_updateFirst
    · intro a ha
      have h2 := ((Bool.and_eq_true _ _).mp ha).2
      have : a.productId = productId := by simpa using h2
      simp [this, hne]
    · intro a ha
      have h2 := ((Bool.and_eq_true _ _).mp ha).2
      have : a.productId = productId := by simpa using h2
      simp [this, hne]

/-- The loop accounts for every request item exactly once, as a success or
a failure. -/
lemma submitAllLoop_counts (products : List CProduct) (cid ts : Nat)
    (items : List OrderItem) (orders : List OrderDoc) (acc : SubmitResults) :
    (submitAllLoop products cid ts items orders acc).2.success +
      (submitAllLoop products cid ts items orders acc).2.failed =
    acc.success + acc.failed + items.length := by
  induction items generalizing orders acc with
  | nil => simp [submitAllLoop]
  | cons item rest ih =>
    unfold submitAllLoop
    cases hfind : (products.find?
        (fun p => p.pid == item.productId && p.customerId == cid)).isSome
    · simp only [hfind, Bool.false_eq_true, if_false]
      rw [ih]
      simp
      omega
    · simp only [hfind, if_true]
      rw [ih]
      simp
      omega

/-- The loop only ever appends to the error list. -/
lemma submitAllLoop_errors_mono (products : List CProduct) (cid ts : Nat)
    (items : List OrderItem) (orders : List OrderDoc) (acc : SubmitResults)
    (e : String) (he : e ∈ acc.errors) :
    e ∈ (submitAllLoop products cid ts items orders acc).2.errors := by
  induction items generalizing orders acc with
  | nil => simpa [submitAllLoop] using he
  | cons item rest ih =>
    unfold submitAllLoop
    cases hfind : (products.find?
        (fun p => p.pid == item.productId && p.customerId == cid)).isSome
    · simp only [hfind, Bool.false_eq_true, if_false]
      exact ih _ _ (List.mem_append_left _ he)
    · simp only [hfind, if_true]
      exact ih _ _ he

/-- A request item whose product the caller does not own leaves its
not-found message in the error list. -/
lemma submitAllLoop_error_of_unowned (products : List CProduct) (cid ts : Nat)
    (items : List OrderItem) (orders : List OrderDoc) (acc : SubmitResults)
    (item : OrderItem) (hmem : item ∈ items)
    (hun : products.find?
      (fun p => p.pid == item.productId && p.customerId == cid) = none) :
    ("Product " ++ toString item.productId ++ " not found") ∈
      (submitAllLoop products cid ts items orders acc).2.errors := by
  induction items generalizing orders acc with
  | nil => cases hmem
  | cons hd rest ih =>
    rcases List.mem_cons.mp hmem with heq | hrest
    · subst heq
      unfold submitAllLoop
      rw [hun]
      simp only [Option.isSome_none, Bool.false_eq_true, if_false]
      exact submitAllLoop_errors_mono _ _ _ _ _ _ _
        (List.mem_append_right _ (List.mem_singleton.mpr rfl))
    · unfold submitAllLoop
      cases hfind : (products.find?
          (fun p => p.pid == hd.productId && p.customerId == cid)).isSome
      · simp only [hfind, Bool.false_eq_true, if_false]
        exact ih _ _ hrest
      · simp only [hfind, if_true]
        exact ih _ _ hrest

/-- The loop leaves the orders of every product id absent from the request
untouched. -/
lemma submitAllLoop_frame (products : List CProduct) (cid ts : Nat)
    (items : List OrderItem) (orders : List OrderDoc) (acc : SubmitResults)
    (pid : Nat) (h : ∀ it ∈ items, it.productId ≠ pid) :
    ((submitAllLoop products cid ts items orders acc).1).filter
        (fun o => o.productId == pid) =
      orders.filter (fun o => o.productId == pid) := by
  induction items generalizing orders acc with
  | nil => simp [submitAllLoop]
  | cons item rest ih =>
    unfold submitAllLoop
    cases hfind : (products.find?
        (fun p => p.pid == item.productId && p.customerId == cid)).isSome
    · simp only [hfind, Bool.false_eq_true, if_false]
      exact ih _ _ (fun it hit => h it (List.mem_cons_of_mem _ hit))
    · simp only [hfind, if_true]
      rw [ih _ _ (fun it hit => h it (List.mem_cons_of_mem _ hit))]
      exact filter_submitOrderUpsert _ _ _ _ _ _
        (h item (List.mem_cons_self _ _))

/-- Claim C1, counterexample: supplier 1 already owns a product with SKU
`X1` (state `dupDB`), yet `POST /api/products` with the same SKU succeeds
and leaves two products with `(supplierId, sku) = (1, X1)` — the claimed
`(tenant, SKU)` uniqueness invariant is false of the code. -/
theorem c1_counterexample :
    (addProduct dupDB { id := 1, role := "supplier" } "X1" "M" 5 "kg" 7).1.status
        = 201 ∧
    ((addProduct dupDB { id := 1, role := "supplier" } "X1" "M" 5 "kg" 7).2.products.filter
        (fun p => p.supplierId == 1 && p.sku == "X1")).length = 2 := by
  decide

/-- Claim C1 as amended: `POST /api/products` performs no SKU check at all —
for any supplier below the 50-product limit the product is appended as-is,
and when the supplier already owns a product with the same SKU the state
ends with more than one `(tenant, SKU)` duplicate. -/
theorem c1_tenant_sku_not_unique (db : DB) (user : AuthUser)
    (sku pname : String) (price : Int) (unit : String) (now : Nat)
    (hr : user.role = "supplier") (hcnt : countProducts db user.id < 50)
    (hdup : ∃ p ∈ db.products, p.supplierId = user.id ∧ p.sku = sku) :
    (addProduct db user sku pname price unit now).2.products =
      db.products ++
        [{ pid := db.nextId, supplierId := user.id, sku := sku, name := pname,
           price := price, unit := unit, lastUpdated := now }] ∧
    1 < ((addProduct db user sku pname price unit now).2.products.filter
          (fun p => p.supplierId == user.id && p.sku == sku)).length := by
  have hrole : (user.role != "supplier") = false := by simp [hr]
  have h2 : ¬ (countProducts db user.id ≥ 50) := by omega
  obtain ⟨p, hmem, hsid, hsku⟩ := hdup
  have hmem' : p ∈ db.products.filter
      (fun p => p.supplierId == user.id && p.sku == sku) :=
    List.mem_filter.mpr ⟨hmem, by simp [hsid, hsku]⟩
  have hlen : 0 < (db.products.filter
      (fun p => p.supplierId == user.id && p.sku == sku)).length := by
    cases hnil : db.products.filter
        (fun p => p.supplierId == user.id && p.sku == sku) with
    | nil => rw [hnil] at hmem'; cases hmem'
    | cons y ys => simp [hnil]
  constructor
  · simp [addProduct, hrole, h2]
  · simp [addProduct, hrole, h2, List.filter_append, List.filter_cons]
    omega

/-- Claim C1, witness: the amended theorem applied to `dupDB`. -/
theorem c1_witness :
    1 < ((addProduct dupDB { id := 1, role := "supplier" } "X1" "M" 5 "kg" 7).2.products.filter
          (fun p => p.supplierId == 1 && p.sku == "X1")).length :=
  (c1_tenant_sku_not_unique dupDB { id := 1, role := "supplier" } "X1" "M" 5
    "kg" 7 rfl (by decide) ⟨prodX1, by decide, rfl, rfl⟩).2

/-- Claim C2: after an admin deletes an existing supplier through
`DELETE /api/admin/suppliers/:id`, the route answers 200 and no product of
that supplier remains queryable — the delete cascades, the surviving
products being exactly those of other suppliers. -/
theorem c2_delete_supplier_cascades (db : DB) (user : AuthUser) (id : Nat)
    (hr : user.role = "admin") (hs : ∃ s ∈ db.suppliers, s.sid = id) :
    (deleteSupplier db user id).1.status = 200 ∧
    (deleteSupplier db user id).2.products.filter
      (fun p => p.supplierId == id) = [] ∧
    (deleteSupplier db user id).2.products =
      db.products.filter (fun p => !(p.supplierId == id)) := by
  have hrole : (user.role != "admin") = false := by simp [hr]
  obtain ⟨s, hmem, hsid⟩ := hs
  have hfind : (db.suppliers.find? (fun s => s.sid == id)).isSome := by
    rw [List.find?_isSome]
    exact ⟨s, hmem, by simp [hsid]⟩
  rw [Option.isSome_iff_exists] at hfind
  obtain ⟨t, hfind⟩ := hfind
  simp [deleteSupplier, hrole, hfind, filter_not_self]

/-- Claim C2, witness: deleting supplier 1 from `dupDB` removes its
product. -/
theorem c2_witness :
    (deleteSupplier dupDB { id := 0, role := "admin" } 1).1.status = 200 ∧
    (deleteSupplier dupDB { id := 0, role := "admin" } 1).2.products.filter
      (fun p => p.supplierId == 1) = [] ∧
    (deleteSupplier dupDB { id := 0, role := "admin" } 1).2.products =
      dupDB.products.filter (fun p => !(p.supplierId == 1)) :=
  c2_delete_supplier_cascades dupDB { id := 0, role := "admin" } 1 rfl
    ⟨sup1, by decide, rfl⟩

/-- Claim C3: whenever no stored supplier matches the username with the
given password (unknown username or wrong password alike), and likewise for
admins, both login routes answer with the identical generic body — status
400, error `Invalid credentials` — and no token. -/
theorem c3_login_generic_failure (db : DB) (username password : String)
    (now : Nat)
    (hs : ∀ s ∈ db.suppliers, (s.email = username ∨ s.username = username) →
            bcryptCompare password s.password = false)
    (ha : ∀ a ∈ db.admins, a.username = username →
            bcryptCompare password a.password = false) :
    (supplierLogin db username password now).1 = invalidCredentials ∧
    (adminLogin db username password).1 = invalidCredentials ∧
    invalidCredentials.status = 400 ∧
    invalidCredentials.error = some "Invalid credentials" ∧
    invalidCredentials.token = none := by
  refine ⟨?_, ?_, rfl, rfl, rfl⟩
  · unfold supplierLogin
    cases hfind : supplierFindByUsername db username with
    | none => rfl
    | some s =>
      have hmem : s ∈ db.suppliers := List.mem_of_find?_eq_some hfind
      have hpred := List.find?_some hfind
      have hcmp : bcryptCompare password s.password = false := by
        apply hs s hmem
        simpa using hpred
      simp [hcmp]
  · unfold adminLogin
    cases hfind : adminFindByUsername db username with
    | none => rfl
    | some a =>
      have hmem : a ∈ db.admins := List.mem_of_find?_eq_some hfind
      have hpred := List.find?_some hfind
      have hcmp : bcryptCompare password a.password = false := by
        apply ha a hmem
        simpa using hpred
      simp [hcmp]

/-- Claim C3, witness: the wrong password against the stored hashes of
`loginDB` draws the generic response from both routes. -/
theorem c3_witness :
    (supplierLogin loginDB "acme" "wrong" 0).1 = invalidCredentials ∧
    (adminLogin loginDB "acme" "wrong").1 = invalidCredentials :=
  ⟨(c3_login_generic_failure loginDB "acme" "wrong" 0 (by decide)
      (by decide)).1,
   (c3_login_generic_failure loginDB "acme" "wrong" 0 (by decide)
      (by decide)).2.1⟩

/-- Claim C4: a verified token whose role differs from the route's required
role is answered with 403 by every protected mutation route, and the
database is returned unchanged — the handler body never runs. -/
theorem c4_role_mismatch_rejected (db : DB) (user : AuthUser)
    (username password companyName contactPerson sku pname : String)
    (price : Int) (unit : String) (now : Nat) (id : Nat) :
    (user.role ≠ "admin" →
       createSupplier db user username password companyName contactPerson =
         ({ status := 403
            error := some "Access denied. Only admins can create suppliers."
            message := none }, db) ∧
       deleteSupplier db user id = (accessDenied, db)) ∧
    (user.role ≠ "supplier" →
       addProduct db user sku pname price unit now = (accessDenied, db) ∧
       updateProduct db user id sku pname price unit now = (accessDenied, db) ∧
       deleteProduct db user id = (accessDenied, db)) := by
  constructor
  · intro h
    have hb : (user.role != "admin") = true := by simp [h]
    constructor <;> simp [createSupplier, deleteSupplier, hb]
  · intro h
    have hb : (user.role != "supplier") = true := by simp [h]
    refine ⟨?_, ?_, ?_⟩ <;>
      simp [addProduct, updateProduct, deleteProduct, hb]

/-- Claim C4, witness: a token with the role `owner` is turned away by the
admin-only and supplier-only routes with 403 and no state change. -/
theorem c4_witness :
    createSupplier dupDB { id := 7, role := "owner" } "u" "p" "c" "k" =
      ({ status := 403
         error := some "Access denied. Only admins can create suppliers."
         message := none }, dupDB) ∧
    addProduct dupDB { id := 7, role := "owner" } "S" "N" 1 "kg" 0 =
      (accessDenied, dupDB) :=
  ⟨((c4_role_mismatch_rejected dupDB { id := 7, role := "owner" } "u" "p" "c"
      "k" "S" "N" 1 "kg" 0 3).1 (by decide)).1,
   ((c4_role_mismatch_rejected dupDB { id := 7, role := "owner" } "u" "p" "c"
      "k" "S" "N" 1 "kg" 0 3).2 (by decide)).1⟩

/-- Claim C5: a supplier holding 50 or more products gets the 400
product-limit response from `POST /api/products` with the state untouched,
while a supplier below the limit gets 201 and exactly the new product
appended. -/
theorem c5_product_limit (db : DB) (user : AuthUser) (sku pname : String)
    (price : Int) (unit : String) (now : Nat) (hr : user.role = "supplier") :
    (50 ≤ countProducts db user.id →
       addProduct db user sku pname price unit now = (productLimitError, db)) ∧
    (countProducts db user.id < 50 →
       (addProduct db user sku pname price unit now).1.status = 201 ∧
       (addProduct db user sku pname price unit now).2.products =
         db.products ++
           [{ pid := db.nextId, supplierId := user.id, sku := sku,
              name := pname, price := price, unit := unit,
              lastUpdated := now }]) := by
  have hrole : (user.role != "supplier") = false := by simp [hr]
  constructor
  · intro h
    simp [addProduct, hrole, h]
  · intro h
    have h2 : ¬ (countProducts db user.id ≥ 50) := by omega
    simp [addProduct, hrole, h2]

/-- Claim C5, witness: supplier 1 is refused at the limit in `fullDB` and
served below it in `dupDB`. -/
theorem c5_witness :
    addProduct fullDB { id := 1, role := "supplier" } "S" "N" 1 "kg" 0 =
      (productLimitError, fullDB) ∧
    (addProduct dupDB { id := 1, role := "supplier" } "Y1" "M" 2 "kg" 3).1.status
      = 201 :=
  ⟨(c5_product_limit fullDB { id := 1, role := "supplier" } "S" "N" 1 "kg" 0
      rfl).1 (by decide),
   ((c5_product_limit dupDB { id := 1, role := "supplier" } "Y1" "M" 2 "kg" 3
      rfl).2 (by decide)).1⟩

/-- Claim C6, counterexample: supplier 1 touching product 10, which belongs
to supplier 2 (state `otherOwnerDB`), gets status 404 — not the claimed 403
— from both the update and the delete route. -/
theorem c6_counterexample :
    (updateProduct otherOwnerDB { id := 1, role := "supplier" } 10 "S" "N" 1
        "kg" 0).1.status = 404 ∧
    ¬ (updateProduct otherOwnerDB { id := 1, role := "supplier" } 10 "S" "N" 1
        "kg" 0).1.status = 403 ∧
    (deleteProduct otherOwnerDB { id := 1, role := "supplier" } 10).1.status
        = 404 ∧
    ¬ (deleteProduct otherOwnerDB { id := 1, role := "supplier" } 10).1.status
        = 403 := by
  decide

/-- Claim C6 as amended: when the addressed product exists but belongs to a
different supplier (so no product matches both the id and the caller), both
routes fail with 404 `Product not found` — ownership mismatch is reported
as not-found, not as 403 — and the state is unchanged. -/
theorem c6_ownership_mismatch_404 (db : DB) (user : AuthUser) (id : Nat)
    (sku pname : String) (price : Int) (unit : String) (now : Nat)
    (hr : user.role = "supplier")
    (hex : ∃ p ∈ db.products, p.pid = id ∧ p.supplierId ≠ user.id)
    (hno : ∀ p ∈ db.products, ¬(p.pid = id ∧ p.supplierId = user.id)) :
    updateProduct db user id sku pname price unit now = (productNotFound, db) ∧
    deleteProduct db user id = (productNotFound, db) := by
  clear hex
  have hrole : (user.role != "supplier") = false := by simp [hr]
  have hfind : db.products.find?
      (fun p => p.pid == id && p.supplierId == user.id) = none := by
    rw [List.find?_eq_none]
    intro p hp
    simpa using hno p hp
  constructor <;> simp [updateProduct, deleteProduct, hrole, hfind]

/-- Claim C6, witness: the amended theorem applied to `otherOwnerDB`. -/
theorem c6_witness :
    updateProduct otherOwnerDB { id := 1, role := "supplier" } 10 "S" "N" 1
      "kg" 0 = (productNotFound, otherOwnerDB) ∧
    deleteProduct otherOwnerDB { id := 1, role := "supplier" } 10 =
      (productNotFound, otherOwnerDB) :=
  c6_ownership_mismatch_404 otherOwnerDB { id := 1, role := "supplier" } 10
    "S" "N" 1 "kg" 0 rfl
    ⟨{ prodX1 with supplierId := 2, pid := 10 }, by decide, rfl, by decide⟩
    (by decide)

/-- Claim C7, counterexample: in `draftsDB` the stored draft of product 10
is 5 and product 11 also belongs to the calling tenant, yet submitting the
single item `(productId 10, orderAmount 7)` stores 7 — the request-body
amount, not the prior draft 5 — as `lastSubmittedAmount` of product 10, and
leaves the draft of the unlisted product 11 at 4 instead of resetting it to
zero. -/
theorem c7_counterexample :
    ((((submitAllOrders draftsDB { id := 1, role := "customer" }
          (some [{ productId := 10, orderAmount := 7 }]) 99).2.orders.find?
          (fun o => o.customerId == 1 && o.productId == 10)).map
          (fun o => o.lastSubmittedAmount)) = some 7) ∧
    ¬ ((((submitAllOrders draftsDB { id := 1, role := "customer" }
          (some [{ productId := 10, orderAmount := 7 }]) 99).2.orders.find?
          (fun o => o.customerId == 1 && o.productId == 10)).map
          (fun o => o.lastSubmittedAmount)) = some 5) ∧
    ((((submitAllOrders draftsDB { id := 1, role := "customer" }
          (some [{ productId := 10, orderAmount := 7 }]) 99).2.orders.find?
          (fun o => o.customerId == 1 && o.productId == 11)).map
          (fun o => o.orderAmount)) = some 4) ∧
    ¬ ((((submitAllOrders draftsDB { id := 1, role := "customer" }
          (some [{ productId := 10, orderAmount := 7 }]) 99).2.orders.find?
          (fun o => o.customerId == 1 && o.productId == 11)).map
          (fun o => o.orderAmount)) = some 0) := by
  decide

/-- Claim C7 as amended: `POST /api/orders/submit-all` processes exactly
the client-supplied items, not every product of the tenant — the route
answers 200 with the shared timestamp, every item is accounted as a
success or a failure, an item whose product the caller does not own leaves
a not-found message among the errors, orders of products absent from the
request are untouched, and a listed owned product's order ends with
`lastSubmittedAmount` equal to the request-body amount, a zero draft and
the shared timestamp. -/
theorem c7_submit_all_client_amounts (db : OrdersDB) (user : AuthUser)
    (items : List OrderItem) (now : Nat) (hr : user.role = "customer") :
    (submitAllOrders db user (some items) now).1.status = 200 ∧
    (submitAllOrders db user (some items) now).1.timestamp = some now ∧
    (∃ res, (submitAllOrders db user (some items) now).1.results = some res ∧
       res.success + res.failed = items.length ∧
       (∀ it ∈ items,
          db.products.find?
            (fun p => p.pid == it.productId && p.customerId == user.id) = none →
          ("Product " ++ toString it.productId ++ " not found") ∈ res.errors)) ∧
    (∀ pid, (∀ it ∈ items, it.productId ≠ pid) →
       (submitAllOrders db user (some items) now).2.orders.filter
           (fun o => o.productId == pid) =
         db.orders.filter (fun o => o.productId == pid)) ∧
    (∀ it : OrderItem,
       (db.products.find?
         (fun p => p.pid == it.productId && p.customerId == user.id)).isSome →
       ∃ o, (submitAllOrders db user (some [it]) now).2.orders.find?
           (fun q => q.customerId == user.id && q.productId == it.productId)
           = some o ∧
         o.lastSubmittedAmount = it.orderAmount ∧ o.orderAmount = 0 ∧
         o.lastUpdated = now) := by
  have hrole : (user.role != "customer") = false := by simp [hr]
  refine ⟨by simp [submitAllOrders, hrole], by simp [submitAllOrders, hrole],
          ?_, ?_, ?_⟩
  · refine ⟨(submitAllLoop db.products user.id now items db.orders
        { success := 0, failed := 0, errors := [] }).2,
      by simp [submitAllOrders, hrole], ?_, ?_⟩
    · have := submitAllLoop_counts db.products user.id now items db.orders
        { success := 0, failed := 0, errors := [] }
      simpa using this
    · intro it hit hun
      exact submitAllLoop_error_of_unowned db.products user.id now items
        db.orders { success := 0, failed := 0, errors := [] } it hit hun
  · intro pid hp
    have hframe := submitAllLoop_frame db.products user.id now items db.orders
      { success := 0, failed := 0, errors := [] } pid hp
    simpa [submitAllOrders, hrole] using hframe
  · intro it hown
    have hstep :
        (submitAllOrders db user (some [it]) now).2.orders =
          submitOrderUpsert db.orders user.id it.productId it.orderAmount now := by
      simp [submitAllOrders, hrole, submitAllLoop, hown]
    rw [hstep]
    exact find?_submitOrderUpsert db.orders user.id it.productId
      it.orderAmount now

/-- Claim C7, witness: submitting items for products 10 (owned) and 99
(not owned) against `draftsDB` yields 200, one success and one failure
with the not-found message, and submitting item 10 alone stores the
request amount 7 with a zero draft and the shared timestamp 99. -/
theorem c7_witness :
    (submitAllOrders draftsDB { id := 1, role := "customer" }
        (some [{ productId := 10, orderAmount := 7 },
               { productId := 99, orderAmount := 2 }]) 99).1.status = 200 ∧
    (∃ res, (submitAllOrders draftsDB { id := 1, role := "customer" }
        (some [{ productId := 10, orderAmount := 7 },
               { productId := 99, orderAmount := 2 }]) 99).1.results = some res ∧
       res.success + res.failed = 2 ∧
       ("Product 99 not found") ∈ res.errors) ∧
    (∃ o, (submitAllOrders draftsDB { id := 1, role := "customer" }
        (some [{ productId := 10, orderAmount := 7 }]) 99).2.orders.find?
        (fun q => q.customerId == 1 && q.productId == 10) = some o ∧
      o.lastSubmittedAmount = 7 ∧ o.orderAmount = 0 ∧ o.lastUpdated = 99) := by
  have h := c7_submit_all_client_amounts draftsDB { id := 1, role := "customer" }
    [{ productId := 10, orderAmount := 7 },
     { productId := 99, orderAmount := 2 }] 99 rfl
  refine ⟨h.1, ?_, h.2.2.2.2 { productId := 10, orderAmount := 7 } (by decide)⟩
  obtain ⟨res, hres, hcount, herr⟩ := h.2.2.1
  exact ⟨res, hres, hcount,
    herr { productId := 99, orderAmount := 2 } (by decide) (by decide)⟩

/-- Claim C8: `initializeAdmin` is create-if-absent — with no admin on
record it creates exactly the default admin with the hashed default
password, with one on record it returns the state unchanged, and running it
twice from any state equals running it once. -/
theorem c8_initialize_admin_idempotent (db : DB) (u pw : String) :
    (db.admins = [] →
      (initializeAdmin u pw db).admins =
        [{ aid := db.nextId, username := u, password := bcryptHash pw }]) ∧
    (db.admins ≠ [] → initializeAdmin u pw db = db) ∧
    initializeAdmin u pw (initializeAdmin u pw db) =
      initializeAdmin u pw db := by
  refine ⟨?_, ?_, ?_⟩
  · intro h
    simp [initializeAdmin, h]
  · intro h
    have hn : db.admins.length ≠ 0 := by simpa [List.length_eq_zero] using h
    simp [initializeAdmin, hn]
  · by_cases h : db.admins = []
    · simp [initializeAdmin, h]
    · have hn : db.admins.length ≠ 0 := by simpa [List.length_eq_zero] using h
      simp [initializeAdmin, hn]

/-- Claim C8, witness: bootstrapping the empty state creates the default
admin, doing it twice changes nothing more, and a state that already has an
admin is left as it is. -/
theorem c8_witness :
    (initializeAdmin "admin" "admin123" emptyDB).admins =
      [{ aid := 0, username := "admin", password := bcryptHash "admin123" }] ∧
    initializeAdmin "admin" "admin123"
        (initializeAdmin "admin" "admin123" emptyDB) =
      initializeAdmin "admin" "admin123" emptyDB ∧
    initializeAdmin "admin" "admin123" loginDB = loginDB :=
  ⟨(c8_initialize_admin_idempotent emptyDB "admin" "admin123").1 rfl,
   (c8_initialize_admin_idempotent emptyDB "admin" "admin123").2.2,
   (c8_initialize_admin_idempotent loginDB "admin" "admin123").2.1
     (by decide)⟩

/-- Claim C9: for a supplier-role caller, `PUT /api/products/:id` and
`DELETE /api/products/:id` leave every product of every other supplier
exactly as it was, whatever path id is supplied — the products whose
`supplierId` differs from the caller form the same list before and after. -/
theorem c9_tenant_isolation_frame (db : DB) (user : AuthUser) (id : Nat)
    (sku pname : String) (price : Int) (unit : String) (now : Nat)
    (hr : user.role = "supplier") :
    (updateProduct db user id sku pname price unit now).2.products.filter
        (fun p => !(p.supplierId == user.id)) =
      db.products.filter (fun p => !(p.supplierId == user.id)) ∧
    (deleteProduct db user id).2.products.filter
        (fun p => !(p.supplierId == user.id)) =
      db.products.filter (fun p => !(p.supplierId == user.id)) := by
  have hrole : (user.role != "supplier") = false := by simp [hr]
  constructor
  · unfold updateProduct
    cases hfind : db.products.find?
        (fun p => p.pid == id && p.supplierId == user.id) with
    | none => simp [hrole, hfind]
    | some q =>
      simp only [hrole, hfind, Bool.false_eq_true, if_false]
      apply filter_updateFirst
      · intro a ha
        have := (Bool.and_eq_true _ _).mp ha
        simp [this.2]
      · intro a ha
        have := (Bool.and_eq_true _ _).mp ha
        simp [this.2]
  · unfold deleteProduct
    cases hfind : db.products.find?
        (fun p => p.pid == id && p.supplierId == user.id) with
    | none => simp [hrole, hfind]
    | some q =>
      simp only [hrole, hfind, Bool.false_eq_true, if_false]
      apply filter_eraseP
      intro a ha
      have := (Bool.and_eq_true _ _).mp ha
      simp [this.2]

/-- Claim C9, witness: supplier 1 addressing product 10 of supplier 2 in
`otherOwnerDB` leaves the products of other suppliers untouched. -/
theorem c9_witness :
    (updateProduct otherOwnerDB { id := 1, role := "supplier" } 10 "S" "N" 1
        "kg" 0).2.products.filter (fun p => !(p.supplierId == 1)) =
      otherOwnerDB.products.filter (fun p => !(p.supplierId == 1)) ∧
    (deleteProduct otherOwnerDB { id := 1, role := "supplier" }
        10).2.products.filter (fun p => !(p.supplierId == 1)) =
      otherOwnerDB.products.filter (fun p => !(p.supplierId == 1)) :=
  c9_tenant_isolation_frame otherOwnerDB { id := 1, role := "supplier" } 10
    "S" "N" 1 "kg" 0 rfl

/-- Claim C10: when the id matches no supplier, the delete route answers
404 `Supplier not found`, yet the unconditional `deleteMany` that ran first
has already removed every product carrying that `supplierId` — the error
path does not leave the state unchanged (the supplier list, though, is). -/
theorem c10_delete_missing_supplier_cascades (db : DB) (user : AuthUser)
    (id : Nat) (hr : user.role = "admin")
    (hs : ∀ s ∈ db.suppliers, s.sid ≠ id) :
    (deleteSupplier db user id).1 =
      { status := 404, error := some "Supplier not found", message := none } ∧
    (deleteSupplier db user id).2.products =
      db.products.filter (fun p => !(p.supplierId == id)) ∧
    (deleteSupplier db user id).2.products.filter
      (fun p => p.supplierId == id) = [] ∧
    (deleteSupplier db user id).2.suppliers = db.suppliers := by
  have hrole : (user.role != "admin") = false := by simp [hr]
  have hfind : db.suppliers.find? (fun s => s.sid == id) = none := by
    rw [List.find?_eq_none]
    intro s hsmem
    simpa using hs s hsmem
  simp [deleteSupplier, hrole, hfind, filter_not_self]

/-- Claim C10, witness: deleting the nonexistent supplier 5 from `orphanDB`
returns 404 but still removes the orphan product of supplier 5. -/
theorem c10_witness :
    (deleteSupplier orphanDB { id := 9, role := "admin" } 5).1 =
      { status := 404, error := some "Supplier not found", message := none } ∧
    (deleteSupplier orphanDB { id := 9, role := "admin" } 5).2.products =
      orphanDB.products.filter (fun p => !(p.supplierId == 5)) ∧
    (deleteSupplier orphanDB { id := 9, role := "admin" } 5).2.products.filter
      (fun p => p.supplierId == 5) = [] ∧
    (deleteSupplier orphanDB { id := 9, role := "admin" } 5).2.suppliers =
      orphanDB.suppliers :=
  c10_delete_missing_supplier_cascades orphanDB { id := 9, role := "admin" } 5
    rfl (by decide)

end SupplierPortal
